import Mathlib

/-!
Shallow embedding of the voxTool core (point-cloud selection engine,
grid-map channel parser, centering protocol, autosave/recovery) together
with theorems checking the claims of the specification against it.

Sources embedded:
  * model/pointcloud.py  (PointCloud, CT)
  * model/gridmap_parser.py  (contact, electrode, GridMapParser)
  * view/pyloc.py  (PylocControl.center_selection, select_coordinate,
    auto_save_state, try_recover_state)

Coordinates are modelled as rational triples (the Python code stores numpy
floats and compares them exactly; exact rational arithmetic reproduces the
comparisons without floating-point rounding).  Python `set` round-trips
(`np.array(list(set(...)))`) are modelled with duplicate-free lists;
only the membership structure of the resulting arrays is ever used by the
claims, so the arbitrary iteration order of a Python set is represented by
the canonical first-occurrence order of `List.dedup`.
-/

namespace VoxTool

/-! ### String utilities

The Python code splits raw file text with `str.split(sep)` and parses
integers with `int(...)`.  `splitOnChar` mirrors `str.split` for a
one-character separator (it never drops empty fields and always returns at
least one field, like Python); `intOfString` mirrors `int(...)` on the
decimal strings that occur in grid-map files, returning `none` where
Python would raise `ValueError`.  These are written by structural
recursion so that concrete parses reduce inside the kernel. -/

def splitCharsAux (sep : Char) : List Char → List Char → List (List Char)
  | [], acc => [acc.reverse]
  | c :: cs, acc =>
    if c = sep then acc.reverse :: splitCharsAux sep cs []
    else splitCharsAux sep cs (c :: acc)

def splitOnChar (s : String) (sep : Char) : List String :=
  (splitCharsAux sep s.toList []).map (fun cs => String.mk cs)

def digitVal (c : Char) : Option Nat :=
  if c = '0' then some 0 else if c = '1' then some 1 else if c = '2' then some 2
  else if c = '3' then some 3 else if c = '4' then some 4 else if c = '5' then some 5
  else if c = '6' then some 6 else if c = '7' then some 7 else if c = '8' then some 8
  else if c = '9' then some 9 else none

def natOfChars : List Char → Option Nat
  | [] => none
  | cs => cs.foldl (fun acc c => match acc, digitVal c with
      | some n, some d => some (n * 10 + d)
      | _, _ => none) (some 0)

def intOfString (s : String) : Option Int :=
  match s.toList with
  | '-' :: rest => (natOfChars rest).map (fun n => -(n : Int))
  | cs => (natOfChars cs).map (fun n => (n : Int))

/-- Python `list(range(a, b + 1))`: the inclusive integer range `[a..b]`,
empty when `b < a`. -/
def rangeIncl (a b : Int) : List Int :=
  (List.range (b + 1 - a).toNat).map (fun i => a + (i : Int))

/-! ### Geometry: points and clouds (model/pointcloud.py) -/

/-- A 3-D voxel-space coordinate (a row of the numpy coordinate array). -/
structure Pt3 where
  x : ℚ
  y : ℚ
  z : ℚ
deriving DecidableEq

/-- Squared Euclidean distance: `np.sum(np.square(self.coordinates - location), 1)`
for one row. -/
def sqDist (p loc : Pt3) : ℚ :=
  (p.x - loc.x) ^ 2 + (p.y - loc.y) ^ 2 + (p.z - loc.z) ^ 2

/-- The comparison performed by `get_points_in_range`:
`np.sqrt(np.sum(np.square(vector_dist), 1)) < range` for one row.
Computed via the equivalent rational test `0 < range ∧ sqDist < range²`
(the equivalence with the real square-root comparison is
`inRange_eq_true_iff` below). -/
def inRange (p loc : Pt3) (range : ℚ) : Bool :=
  decide ((0 : ℚ) < range ∧ sqDist p loc < range * range)

lemma sqDist_nonneg (p loc : Pt3) : 0 ≤ sqDist p loc := by
  have hx : (0 : ℚ) ≤ (p.x - loc.x) ^ 2 := sq_nonneg _
  have hy : (0 : ℚ) ≤ (p.y - loc.y) ^ 2 := sq_nonneg _
  have hz : (0 : ℚ) ≤ (p.z - loc.z) ^ 2 := sq_nonneg _
  unfold sqDist
  linarith

/-- `inRange` computes exactly the strict comparison, from the source, of the real
Euclidean distance against the radius. -/
lemma inRange_eq_true_iff (p loc : Pt3) (range : ℚ) :
    inRange p loc range = true ↔
      Real.sqrt ((sqDist p loc : ℚ) : ℝ) < (range : ℝ) := by
  unfold inRange
  rw [decide_eq_true_iff]
  constructor
  · rintro ⟨hr, hlt⟩
    have hr' : (0 : ℝ) < (range : ℝ) := by exact_mod_cast hr
    rw [Real.sqrt_lt' hr']
    have : ((sqDist p loc : ℚ) : ℝ) < ((range * range : ℚ) : ℝ) := by exact_mod_cast hlt
    calc ((sqDist p loc : ℚ) : ℝ) < ((range * range : ℚ) : ℝ) := this
      _ = (range : ℝ) ^ 2 := by push_cast; ring
  · intro h
    have hsq : (0 : ℝ) ≤ ((sqDist p loc : ℚ) : ℝ) := by
      exact_mod_cast sqDist_nonneg p loc
    have hr'' : (0 : ℝ) < (range : ℝ) := lt_of_le_of_lt (Real.sqrt_nonneg _) h
    refine ⟨by exact_mod_cast hr'', ?_⟩
    have := (Real.sqrt_lt' hr'').mp h
    have h2 : ((sqDist p loc : ℚ) : ℝ) < ((range * range : ℚ) : ℝ) := by
      calc ((sqDist p loc : ℚ) : ℝ) < (range : ℝ) ^ 2 := this
        _ = ((range * range : ℚ) : ℝ) := by push_cast; ring
    exact_mod_cast h2

/-- `PointCloud`: a labelled coordinate array (model/pointcloud.py lines 7-76). -/
structure PointCloud where
  label : String
  coordinates : List Pt3
deriving DecidableEq

/-- Python `list(setA.union(setB))` for sets built from the two lists:
a duplicate-free list whose members are exactly the members of `a ++ b`.
A Python set iterates in an unspecified order; the canonical
first-occurrence order of `List.dedup` represents it. -/
def setUnion (a b : List Pt3) : List Pt3 := (a ++ b).dedup

/-- `PointCloud.clear`: `self.coordinates = np.array([[],[],[]]).T`. -/
def PointCloud.clear (pc : PointCloud) : PointCloud :=
  { pc with coordinates := [] }

/-- `PointCloud.add_coordinates`:
`self.coordinates = np.array(list(coord_set.union(self.setify())))`. -/
def PointCloud.add_coordinates (pc : PointCloud) (coords : List Pt3) : PointCloud :=
  { pc with coordinates := setUnion coords pc.coordinates }

/-- `PointCloud.union` (lines 44-48): a new cloud holding
`np.array(list(self_set.union(other_set)))`, labelled with `self.label`. -/
def PointCloud.union (pc other : PointCloud) : PointCloud :=
  { label := pc.label
    coordinates := setUnion pc.coordinates other.coordinates }

/-- `PointCloud.get_points_in_range(location, range)` (lines 54-57):
`self.coordinates[dists < range]` where `dists` is the rowwise Euclidean
distance to `location`.  The Python signature defaults `range` to 20;
callers relying on the default pass 20 explicitly here. -/
def PointCloud.get_points_in_range (pc : PointCloud) (location : Pt3) (range : ℚ) :
    List Pt3 :=
  pc.coordinates.filter (fun p => inRange p location range)

/-! ### CT selection state (model/pointcloud.py lines 78-124)

The nibabel volume loading and percentile thresholding of the constructor are
I/O; the embedded state starts from an arbitrary master cloud (the
`all_points` field the constructor would have produced). -/

/-- The point-cloud state of the `CT` object. -/
structure CT where
  all_points : PointCloud
  selected_points : PointCloud
  proposed_electrodes : List PointCloud
  missing_electrodes : List PointCloud
  confirmed_electrodes : List PointCloud
deriving DecidableEq

/-- `CT.empty_cloud(label)`: `PointCloud(label, np.array([[], [], []]).T)`. -/
def CT.empty_cloud (label : String) : PointCloud :=
  { label := label, coordinates := [] }

/-- `CT.select_points(points)`: `self.selected_points.clear()` followed by
`self.selected_points.add_coordinates(points)`. -/
def CT.select_points (ct : CT) (points : List Pt3) : CT :=
  { ct with selected_points := ct.selected_points.clear.add_coordinates points }

/-- `CT.select_points_near(point)` (lines 116-118):
`self.select_points(self.all_points.get_points_in_range(point))`; the range
query runs with its default radius `range=20`. -/
def CT.select_points_near (ct : CT) (point : Pt3) : CT :=
  ct.select_points (ct.all_points.get_points_in_range point 20)

/-- `CT.confirm_selected_electrode(name)` (lines 120-124): builds an empty
cloud, calls `new_cloud.union(self.selected_points)` whose return value is
not assigned anywhere (`union` is pure, so the call leaves `new_cloud`
empty), appends `new_cloud`, and clears the selection. -/
def CT.confirm_selected_electrode (ct : CT) (name : String) : CT :=
  let new_cloud := CT.empty_cloud name
  let _discarded := new_cloud.union ct.selected_points
  { ct with
    confirmed_electrodes := ct.confirmed_electrodes ++ [new_cloud]
    selected_points := ct.selected_points.clear }

/-! ### Grid-map parser (model/gridmap_parser.py)

`parse` is embedded as a pure function of the raw file text (the
`open`/`read` of the real method is I/O).  Python exceptions become an
error value carried next to the parser state at the moment of the raise,
so that the state a failed parse leaves behind can be inspected. -/

/-- A parsed `contact` (gridmap_parser.py lines 97-141); all fields start
as Python `None`. -/
structure contact where
  channelID : Option Int
  localChannelIdx : Option Nat
  globalChannelIdx : Option Nat
  contactType : Option String
deriving DecidableEq

/-- The freshly constructed `contact()`. -/
def contact.init : contact :=
  { channelID := none, localChannelIdx := none, globalChannelIdx := none,
    contactType := none }

/-- A parsed `electrode` (gridmap_parser.py lines 143-205). -/
structure electrode where
  gridId : Option Int
  template : Option String
  location : Option String
  hemisphere : Option String
  label : Option String
  numberOfChannels : Nat
  channelIDs : Option (List Int)
  contactsList : List contact
deriving DecidableEq

/-- The freshly constructed `electrode()`. -/
def electrode.init : electrode :=
  { gridId := none, template := none, location := none, hemisphere := none,
    label := none, numberOfChannels := 0, channelIDs := none, contactsList := [] }

/-- The mutable fields of a `GridMapParser` (lines 275-288) that `parse`
updates (`filename`/`raw` are the I/O inputs, abstracted away). -/
structure GridMapParser where
  channelIDsPresent : Bool
  contactTotal : Nat
  electrodeList : List electrode
deriving DecidableEq

/-- A freshly constructed `GridMapParser(filename)`. -/
def GridMapParser.init : GridMapParser :=
  { channelIDsPresent := false, contactTotal := 0, electrodeList := [] }

/-- The Python exceptions `parse` can raise. -/
inductive ParseErr where
  | valueError
  | indexError
  | assertionError
deriving DecidableEq

/-- Evaluation of `list(range(int(f[0]), int(f[1]) + 1))` on a split field
`f = s.split(':')`: Python evaluates `int(f[0])`, then the index `f[1]`,
then `int(f[1])`, raising `ValueError` / `IndexError` in that order. -/
def parseRangeField (s : String) : Except ParseErr (List Int) :=
  let fields := splitOnChar s ':'
  match intOfString (fields.headD "") with
  | none => .error .valueError
  | some a =>
    match fields.get? 1 with
    | none => .error .indexError
    | some s1 =>
      match intOfString s1 with
      | none => .error .valueError
      | some b => .ok (rangeIncl a b)

/-- The contact loop (lines 350-358): for each element of `contactRange`,
increment `contactTotal`, append a fresh `contact`, set its `channelID`
from `channelIDs[loopIdx]` when channel IDs are present, its
`localChannelIdx` to the loop index, its `globalChannelIdx` to the
running `contactTotal`, and its `contactType` to the template.  Returns
the appended contacts, the final `contactTotal`, and the number of
contacts appended (the growth of `numberOfChannels`). -/
def contactsLoop (chPresent : Bool) (chIDs : List Int) (ctype : Option String)
    (loopIdx total : Nat) : List Int → List contact × Nat × Nat
  | [] => ([], total, 0)
  | _ :: rest =>
    let c : contact :=
      { channelID := if chPresent then chIDs.get? loopIdx else none
        localChannelIdx := some loopIdx
        globalChannelIdx := some (total + 1)
        contactType := ctype }
    let r := contactsLoop chPresent chIDs ctype (loopIdx + 1) (total + 1) rest
    (c :: r.1, r.2.1, r.2.2 + 1)

/-- Lines 345-358 of `parse`, from `contactsList = []` on: reset the
contact list, and on the parsed contact range (whose possible exceptions
arrive as the `Except` argument) run the length assertion (line 349,
active exactly when `channelIDsPresent`) and then the contact loop.  `e`
is the electrode object currently last in `electrodeList`; it is appended
at every exit. -/
def withContactRange (st : GridMapParser) (e : electrode) :
    Except ParseErr (List Int) → GridMapParser × Option ParseErr
  | .error err => ({ st with electrodeList := st.electrodeList ++ [e] }, some err)
  | .ok contactRange =>
    if st.channelIDsPresent ∧ contactRange.length ≠ (e.channelIDs.getD []).length
    then ({ st with electrodeList := st.electrodeList ++ [e] },
          some .assertionError)
    else
      let r := contactsLoop st.channelIDsPresent (e.channelIDs.getD [])
        e.template 0 st.contactTotal contactRange
      let e := { e with
        numberOfChannels := e.numberOfChannels + r.2.2
        contactsList := e.contactsList ++ r.1 }
      ({ st with
         contactTotal := r.2.1
         electrodeList := st.electrodeList ++ [e] }, none)

/-- Lines 341-343 of `parse`: store the parsed channel-ID range (whose
possible exceptions arrive as the `Except` argument) on the electrode and
continue with the contact range of field 6. -/
def withChannelIDs (st : GridMapParser) (parts : List String) (e : electrode) :
    Except ParseErr (List Int) → GridMapParser × Option ParseErr
  | .error err => ({ st with electrodeList := st.electrodeList ++ [e] }, some err)
  | .ok ids =>
    withContactRange st { e with channelIDs := some ids, contactsList := [] }
      (parseRangeField (parts.getD 6 ""))

/-- Lines 334-344 of `parse`: append a fresh electrode, set its scalar
fields (`int(parts[0])` may raise, leaving the blank electrode appended),
run the mid-loop `self.channelIDsPresent = True  # for debug` (line 340)
as written, and continue with the channel-ID range of field 5 when
channel IDs are present. -/
def withGridId (st : GridMapParser) (parts : List String) :
    Option Int → GridMapParser × Option ParseErr
  | none => ({ st with electrodeList := st.electrodeList ++ [electrode.init] },
             some .valueError)
  | some gid =>
    let e : electrode :=
      { electrode.init with
        gridId := some gid
        template := some (parts.getD 1 "")
        location := some (parts.getD 2 "")
        hemisphere := some (parts.getD 3 "")
        label := some (parts.getD 4 "") }
    let st := { st with channelIDsPresent := true }
    if st.channelIDsPresent then
      withChannelIDs st parts e (parseRangeField (parts.getD 5 ""))
    else
      withContactRange st { e with contactsList := [] }
        (parseRangeField (parts.getD 6 ""))

/-- One data line of `parse` (lines 325-358).  Returns the parser state
after the line together with the exception raised on it, if any: skip
short and `NoWhere` rows, then run lines 334-358 via `withGridId`. -/
def processDataLine (st : GridMapParser) (line : String) :
    GridMapParser × Option ParseErr :=
  let parts := splitOnChar line ','
  if parts.length < 7 then (st, none)
  else if parts.getD 2 "" = "NoWhere" then (st, none)
  else withGridId st parts (intOfString (parts.getD 0 ""))

/-- The `for line in lines[1:]` loop: process lines until one raises. -/
def parseLines (st : GridMapParser) : List String → GridMapParser × Option ParseErr
  | [] => (st, none)
  | l :: ls =>
    match processDataLine st l with
    | (st', none) => parseLines st' ls
    | (st', some e) => (st', some e)

/-- `GridMapParser.parse` (lines 290-361) on raw file text: split into
lines, read `header[5]` (an `IndexError` when the header has fewer than
six fields) to set `channelIDsPresent`, then process the remaining lines. -/
def parse (raw : String) : GridMapParser × Option ParseErr :=
  let lines := splitOnChar raw '\n'
  let header := splitOnChar (lines.headD "") ','
  match header.get? 5 with
  | none => (GridMapParser.init, some .indexError)
  | some h5 =>
    parseLines { GridMapParser.init with channelIDsPresent := h5 == "ChannelID" }
      lines.tail

/-! ### Sample grid-map file

The data rows of the sample file documented in gridmap_parser.py
(electrodes `LA` … `RST` plus the trailing dummy `DMY` at `NoWhere`),
as clean CSV. -/

def sampleRows : String :=
"0,SpencerDepth1x10,Amygdala,Left,LA,1:10,1:10
1,SpencerDepth1x10,HippocampusHead,Left,LHH,11:20,1:10
2,SpencerDepth1x10,HippocampusTail,Left,LHT,21:30,1:10
3,SpencerDepth1x10,OrbitofrontalCortex,Left,LOFC,31:40,1:10
4,SpencerDepth1x6,Cingulate,Left,LC,41:46,1:6
5,SpencerDepth1x10,Insula,Left,LI,47:56,1:10
6,SpencerDepth1x6,AnteriorFrontal,Left,LAF,57:62,1:6
7,SpencerDepth1x6,PosteriorFrontal,Left,LPF,63:68,1:6
8,SpencerDepth1x8,HippocampusTail,Right,RHT,69:76,1:8
9,SpencerDepth1x8,OrbitofrontalCortex,Right,ROFC,77:84,1:8
10,SpencerDepth1x6,Cingulate,Right,RC,85:90,1:6
11,SpencerDepth1x10,Insula,Right,RI,91:100,1:10
12,SpencerDepth1x6,InferiorTemporal,Right,RIT,101:106,1:6
13,SpencerDepth1x6,SuperiorTemporal,Right,RST,107:112,1:6
14,Dummy1x1,NoWhere,Left,DMY,128:128,1:1"

/-- The sample file with the `ChannelID` header documented at the top of
gridmap_parser.py (line 28). -/
def sampleGridMap : String :=
"GridId,Template,Location,Hemisphere,Label,ChannelID,GridElectrode
" ++ sampleRows

/-- The same rows under the `Channel` header used by the example
input (line 77), whose sixth column is not named `ChannelID`. -/
def sampleGridMapChannelHeader : String :=
"GridId,Template,Location,Hemisphere,Label,Channel,GridElectrode
" ++ sampleRows

/-- A data row whose channel-ID range (six channels, `41:46`) does not
match its contact range (ten contacts, `1:10`). -/
def mismatchRow : String := "4,SpencerDepth1x6,Cingulate,Left,LC,41:46,1:10"

/-- A data row skipped by the strictly-less-than-seven-fields check of `parse`. -/
def shortRow : String := "this row is malformed"

/-- The dummy-electrode row skipped by the `NoWhere` check of `parse`. -/
def dummyRow : String := "14,Dummy1x1,NoWhere,Left,DMY,128:128,1:1"

/-- A data row on which `processDataLine` hits the length assertion
(line 349): at least seven fields, not a `NoWhere` dummy, integer grid id,
both ranges well-formed, and range lengths that differ. -/
def mismatchLine (line : String) : Prop :=
  let parts := splitOnChar line ','
  7 ≤ parts.length ∧ parts.getD 2 "" ≠ "NoWhere" ∧
    (intOfString (parts.getD 0 "")).isSome = true ∧
    ∃ chr cr, parseRangeField (parts.getD 5 "") = .ok chr ∧
      parseRangeField (parts.getD 6 "") = .ok cr ∧ cr.length ≠ chr.length

/-! ### Centering protocol (view/pyloc.py lines 518-520 and 555-558)

`PylocControl.center_selection` iterates over the CT engine imported from
model/scan.py (`from model.scan import CT`), a module of this repository
whose source is not present; its two methods used here are modelled from
the spec. -/

/-- Modelled from the spec: the point-cloud state of the model/scan.py
`CT` engine (absent from the source tree), reduced to the two clouds the
centering protocol touches — the master cloud of all thresholded voxels
and the current selection (spec section 4.4). -/
structure ScanCT where
  masterCloud : List Pt3
  selectedCloud : List Pt3
deriving DecidableEq

/-- Modelled from the spec: `CT.selection_center()` from model/scan.py
(absent from the source tree) — "the centroid (arithmetic mean per axis)
of the current `selected` cloud" (spec section 4.4).  On an empty
selection the spec leaves the value undefined (NaN propagation); rational
division by zero yields the fixed value 0 here, and no claim depends on
the empty case. -/
def ScanCT.selection_center (ct : ScanCT) : Pt3 :=
  let n : ℚ := ct.selectedCloud.length
  { x := (ct.selectedCloud.map Pt3.x).sum / n
    y := (ct.selectedCloud.map Pt3.y).sum / n
    z := (ct.selectedCloud.map Pt3.z).sum / n }

/-- Modelled from the spec: `CT.select_points_near(point, radius)` from
model/scan.py (absent from the source tree) — "replaces the current
`selected` cloud with all master-cloud points within `radius` of `point`
(uses the range query of spec section 4.1); a full replace, not an accumulation"
(spec section 4.4). -/
def ScanCT.select_points_near (ct : ScanCT) (point : Pt3) (radius : ℚ) : ScanCT :=
  { ct with
    selectedCloud := ct.masterCloud.filter (fun p => inRange p point radius) }

/-- The fields of `PylocControl` read and written by `center_selection`. -/
structure PylocState where
  ct : ScanCT
  selected_coordinate : Pt3
deriving DecidableEq

/-- The body of one `center_selection` loop iteration (pyloc.py lines
557-558): `self.selected_coordinate = self.ct.selection_center()` then
`self.ct.select_points_near(self.selected_coordinate, radius)`. -/
def centeringStep (radius : ℚ) (s : PylocState) : PylocState :=
  let c := s.ct.selection_center
  { selected_coordinate := c
    ct := s.ct.select_points_near c radius }

/-- `PylocControl.center_selection(iterations, radius)` (lines 555-558):
`for _ in range(iterations)` around `centeringStep`. -/
def center_selection (iterations : Nat) (radius : ℚ) (s : PylocState) : PylocState :=
  (List.range iterations).foldl (fun s _ => centeringStep radius s) s

/-- The configuration keys `select_coordinate` reads. -/
structure Config where
  selection_iterations : Nat
deriving DecidableEq

/-- The centering call in `PylocControl.select_coordinate` (lines 518-520):
`self.center_selection(self.config['selection_iterations'], radius)`. -/
def select_coordinate_center (config : Config) (radius : ℚ) (s : PylocState) :
    PylocState :=
  center_selection config.selection_iterations radius s

/-! ### Autosave and recovery (view/pyloc.py lines 151-224)

File contents, the Qt confirmation dialog and the CT engine are
external effects; they enter as explicit values (the saved session, the
file-existence predicate, the reply of the user).  The threshold and the
`to_dict()` lead serialization travel through autosave untouched, so they
are carried as opaque values. -/

/-- A JSON value of the session state file, to the depth `auto_save_state`
builds it (the `leads` entry holds the `to_dict()` output opaquely). -/
inductive SessionJson where
  | str : String → SessionJson
  | num : ℚ → SessionJson
  | leadsDict : String → SessionJson
deriving DecidableEq

/-- `PylocControl.auto_save_state` (lines 151-170): the JSON object written
to the autosave file, as its ordered key/value pairs. -/
def auto_save_state (ct_filename : String) (threshold : ℚ) (leads : String)
    (timestamp : String) : List (String × SessionJson) :=
  [("ct_file", .str ct_filename),
   ("threshold", .num threshold),
   ("leads", .leadsDict leads),
   ("timestamp", .str timestamp)]

/-- The saved session as read back by `try_recover_state`. -/
structure SessionState where
  ct_file : String
  threshold : ℚ
  leads : String
  timestamp : String
deriving DecidableEq

/-- What a run of `try_recover_state` does. -/
inductive RecoveryOutcome where
  /-- No autosave file: the body is skipped entirely. -/
  | noAutosave
  /-- The user answered No to the recovery prompt. -/
  | declined
  /-- `state['ct_file']` no longer exists: a warning is shown and logged,
  and nothing is restored. -/
  | ctFileMissing
  /-- The CT was reloaded at the saved threshold and `from_dict` replayed
  the saved leads. -/
  | recovered (ct_file : String) (threshold : ℚ) (leads : String)
deriving DecidableEq

/-- `PylocControl.try_recover_state` (lines 172-224): if an autosave file
exists, read it, ask the user, and on Yes either restore (when
`os.path.exists(state['ct_file'])`) or warn and skip. -/
def try_recover_state (fileExists : String → Bool) (autosave : Option SessionState)
    (userAccepts : Bool) : RecoveryOutcome :=
  match autosave with
  | none => .noAutosave
  | some state =>
    if userAccepts then
      if fileExists state.ct_file then
        .recovered state.ct_file state.threshold state.leads
      else .ctFileMissing
    else .declined

/-! ### Helper lemmas -/

lemma center_selection_eq_iterate (n : Nat) (radius : ℚ) (s : PylocState) :
    center_selection n radius s = (centeringStep radius)^[n] s := by
  induction n generalizing s with
  | zero => simp [center_selection]
  | succ n ih =>
    simp only [center_selection, List.range_succ, List.foldl_append, List.foldl_cons,
      List.foldl_nil] at *
    rw [Function.iterate_succ_apply', ← ih]

lemma setUnion_mem (a b : List Pt3) (p : Pt3) :
    p ∈ setUnion a b ↔ p ∈ a ∨ p ∈ b := by
  simp [setUnion]

lemma processDataLine_skip (st : GridMapParser) (line : String)
    (h : (splitOnChar line ',').length < 7 ∨ (splitOnChar line ',').getD 2 "" = "NoWhere") :
    processDataLine st line = (st, none) := by
  unfold processDataLine
  rcases h with h | h
  · rw [if_pos h]
  · by_cases h7 : (splitOnChar line ',').length < 7
    · rw [if_pos h7]
    · rw [if_neg h7, if_pos h]

lemma parseLines_cons_ok (st st' : GridMapParser) (l : String) (ls : List String)
    (h : processDataLine st l = (st', none)) :
    parseLines st (l :: ls) = parseLines st' ls := by
  simp [parseLines, h]

lemma parseLines_cons_err (st st' : GridMapParser) (l : String) (ls : List String)
    (e : ParseErr) (h : processDataLine st l = (st', some e)) :
    parseLines st (l :: ls) = (st', some e) := by
  simp [parseLines, h]

lemma parseLines_append_ok (xs : List String) :
    ∀ (st : GridMapParser) (ys : List String), (parseLines st xs).2 = none →
      parseLines st (xs ++ ys) = parseLines (parseLines st xs).1 ys := by
  induction xs with
  | nil => intro st ys _; rfl
  | cons x xs ih =>
    intro st ys h
    cases hp : processDataLine st x with
    | mk st1 eOpt =>
      cases eOpt with
      | none =>
        rw [parseLines_cons_ok st st1 x xs hp] at h
        rw [List.cons_append, parseLines_cons_ok st st1 x (xs ++ ys) hp,
          parseLines_cons_ok st st1 x xs hp]
        exact ih st1 ys h
      | some e =>
        rw [parseLines_cons_err st st1 x xs e hp] at h
        simp at h

lemma parseLines_append_err (xs : List String) :
    ∀ (st : GridMapParser) (ys : List String) (e : ParseErr),
      (parseLines st xs).2 = some e →
      parseLines st (xs ++ ys) = parseLines st xs := by
  induction xs with
  | nil => intro st ys e h; simp [parseLines] at h
  | cons x xs ih =>
    intro st ys e h
    cases hp : processDataLine st x with
    | mk st1 eOpt =>
      cases eOpt with
      | none =>
        rw [parseLines_cons_ok st st1 x xs hp] at h
        rw [List.cons_append, parseLines_cons_ok st st1 x (xs ++ ys) hp,
          parseLines_cons_ok st st1 x xs hp]
        exact ih st1 ys e h
      | some e1 =>
        rw [List.cons_append, parseLines_cons_err st st1 x _ e1 hp,
          parseLines_cons_err st st1 x xs e1 hp]

lemma contactsLoop_get (chP : Bool) (chIDs : List Int) (ctype : Option String) :
    ∀ (l : List Int) (i t k : Nat) (c : contact),
      (contactsLoop chP chIDs ctype i t l).1.get? k = some c →
      c.globalChannelIdx = some (t + k + 1) ∧ c.localChannelIdx = some (i + k) := by
  intro l
  induction l with
  | nil => intro i t k c h; simp [contactsLoop] at h
  | cons a rest ih =>
    intro i t k c h
    cases k with
    | zero =>
      simp only [contactsLoop, List.get?] at h
      cases h
      exact ⟨rfl, rfl⟩
    | succ k =>
      simp only [contactsLoop, List.get?] at h
      have := ih (i + 1) (t + 1) k c h
      refine ⟨?_, ?_⟩
      · rw [this.1]
        congr 1
        omega
      · rw [this.2]
        congr 1
        omega

lemma processDataLine_mismatch (st : GridMapParser) (line : String)
    (h : mismatchLine line) :
    ∃ e : electrode,
      processDataLine st line
        = ({ st with
              channelIDsPresent := true
              electrodeList := st.electrodeList ++ [e] },
           some ParseErr.assertionError) := by
  simp only [mismatchLine] at h
  obtain ⟨h7, hnw, hint, chr, cr, hc5, hc6, hlen⟩ := h
  obtain ⟨gid, hgid⟩ := Option.isSome_iff_exists.mp hint
  refine ⟨{ electrode.init with
      gridId := some gid
      template := some ((splitOnChar line ',').getD 1 "")
      location := some ((splitOnChar line ',').getD 2 "")
      hemisphere := some ((splitOnChar line ',').getD 3 "")
      label := some ((splitOnChar line ',').getD 4 "")
      channelIDs := some chr
      contactsList := [] }, ?_⟩
  simp only [processDataLine]
  rw [if_neg (by omega), if_neg hnw, hgid]
  simp only [withGridId, if_true]
  rw [hc5]
  simp only [withChannelIDs]
  rw [hc6]
  simp only [withContactRange]
  rw [if_pos ⟨trivial, by simpa using hlen⟩]

lemma processDataLine_success_global_idx (st : GridMapParser) (line : String)
    (st' : GridMapParser) (e' : electrode)
    (hp : processDataLine st line = (st', none))
    (happ : st'.electrodeList = st.electrodeList ++ [e'])
    (k : Nat) (c : contact) (hc : e'.contactsList.get? k = some c) :
    c.globalChannelIdx = some (st.contactTotal + k + 1) := by
  simp only [processDataLine] at hp
  by_cases h7 : (splitOnChar line ',').length < 7
  · rw [if_pos h7, Prod.mk.injEq] at hp
    rw [← hp.1] at happ
    have := congrArg List.length happ
    simp at this
  · rw [if_neg h7] at hp
    by_cases hnw : (splitOnChar line ',').getD 2 "" = "NoWhere"
    · rw [if_pos hnw, Prod.mk.injEq] at hp
      rw [← hp.1] at happ
      have := congrArg List.length happ
      simp at this
    · rw [if_neg hnw] at hp
      cases hgid : intOfString ((splitOnChar line ',').getD 0 "") with
      | none =>
        rw [hgid] at hp
        simp [withGridId] at hp
      | some gid =>
        rw [hgid] at hp
        simp only [withGridId, if_true] at hp
        cases hc5 : parseRangeField ((splitOnChar line ',').getD 5 "") with
        | error err =>
          rw [hc5] at hp
          simp [withChannelIDs] at hp
        | ok chr =>
          rw [hc5] at hp
          simp only [withChannelIDs] at hp
          cases hc6 : parseRangeField ((splitOnChar line ',').getD 6 "") with
          | error err =>
            rw [hc6] at hp
            simp [withContactRange] at hp
          | ok cr =>
            rw [hc6] at hp
            simp only [withContactRange] at hp
            split at hp
            · simp at hp
            · rw [Prod.mk.injEq] at hp
              rw [← hp.1] at happ
              simp only at happ
              have hsingle : [_] = [e'] := List.append_cancel_left happ
              have he : e' = _ := (List.cons.injEq _ _ _ _ ▸ hsingle).1.symm
              rw [he] at hc
              simp only [List.nil_append] at hc
              exact (contactsLoop_get _ _ _ _ _ _ _ _ hc).1

/-! ### Claim theorems -/

/-- C1: the iterative centering protocol of `PylocControl.center_selection`
performs exactly `iterations` iterations — invoked from `select_coordinate`
with `iterations = config['selection_iterations']` — where each iteration
first recomputes the centroid of the current selection and then re-selects
the master-cloud points near that centroid with the same radius; the
result is the plain `n`-fold composite of that step on any state, so there
is no convergence check beyond the fixed iteration count. -/
theorem centering_protocol_iterations (config : Config) (radius : ℚ) (s : PylocState) :
    select_coordinate_center config radius s
        = (centeringStep radius)^[config.selection_iterations] s
    ∧ ∀ t : PylocState,
        (centeringStep radius t).selected_coordinate = t.ct.selection_center
        ∧ (centeringStep radius t).ct.selectedCloud
            = t.ct.masterCloud.filter (fun p => inRange p t.ct.selection_center radius)
        ∧ (centeringStep radius t).ct.masterCloud = t.ct.masterCloud := by
  refine ⟨center_selection_eq_iterate _ _ _, fun t => ⟨rfl, rfl, rfl⟩⟩

/-- C2: `get_points_in_range(c, r)` returns exactly the points of the
cloud whose Euclidean distance (square root of the sum of squared
per-axis differences) to `c` is strictly less than `r`; in particular a
point at distance exactly `r` fails the strict inequality and is
excluded. -/
theorem get_points_in_range_euclidean (pc : PointCloud) (c : Pt3) (r : ℚ) (p : Pt3) :
    p ∈ pc.get_points_in_range c r ↔
      p ∈ pc.coordinates ∧ Real.sqrt ((sqDist p c : ℚ) : ℝ) < (r : ℝ) := by
  unfold PointCloud.get_points_in_range
  rw [List.mem_filter, inRange_eq_true_iff]

/-- C5: `CT.select_points_near(point)` replaces the selected cloud
entirely: afterwards it holds exactly the master-cloud points at Euclidean
distance strictly below the query radius (the range query's radius, 20),
the master cloud is unchanged, and the result does not depend on what was
selected before the call. -/
theorem select_points_near_replaces (ct : CT) (point q : Pt3) :
    (q ∈ (ct.select_points_near point).selected_points.coordinates ↔
        q ∈ ct.all_points.coordinates
        ∧ Real.sqrt ((sqDist q point : ℚ) : ℝ) < ((20 : ℚ) : ℝ))
    ∧ (ct.select_points_near point).all_points = ct.all_points
    ∧ ∀ ct' : CT, ct'.all_points = ct.all_points →
        (ct'.select_points_near point).selected_points.coordinates
          = (ct.select_points_near point).selected_points.coordinates := by
  refine ⟨?_, rfl, ?_⟩
  · show q ∈ setUnion (ct.all_points.get_points_in_range point 20) [] ↔ _
    rw [setUnion_mem]
    simp only [List.not_mem_nil, or_false]
    exact get_points_in_range_euclidean ct.all_points point 20 q
  · intro ct' h
    show setUnion (ct'.all_points.get_points_in_range point 20) [] = _
    rw [h]
    rfl

/-- C6: `PointCloud.union` yields a new cloud whose coordinates are
exactly the set union of the two inputs (membership-wise), contain no
duplicates, agree as a set with the union taken in the other order, and
carry the label of the receiver.  The embedded operation is a pure
function of its two arguments, so the inputs are left unchanged by
construction. -/
theorem union_set_algebra (a b : PointCloud) :
    (∀ p, p ∈ (a.union b).coordinates ↔ p ∈ a.coordinates ∨ p ∈ b.coordinates)
    ∧ (a.union b).coordinates.Nodup
    ∧ (a.union b).coordinates.toFinset = (b.union a).coordinates.toFinset
    ∧ (a.union b).label = a.label := by
  refine ⟨fun p => setUnion_mem _ _ _, List.nodup_dedup _, ?_, rfl⟩
  ext p
  simp only [List.mem_toFinset, PointCloud.union]
  rw [setUnion_mem, setUnion_mem, or_comm]

/-- C10: `CT.confirm_selected_electrode(name)` on a state with a non-empty
selection appends a cloud that is labelled `name` but holds no coordinates
(the `union` with the selected points is computed and discarded), and then
clears the selected cloud; the selected points are never transferred into
the confirmed cloud. -/
theorem confirm_selected_electrode_drops_points (ct : CT) (name : String)
    (_hsel : ct.selected_points.coordinates ≠ []) :
    (ct.confirm_selected_electrode name).confirmed_electrodes
        = ct.confirmed_electrodes ++ [{ label := name, coordinates := [] }]
    ∧ (ct.confirm_selected_electrode name).selected_points.coordinates = [] := by
  exact ⟨rfl, rfl⟩

/-- A CT state with two master points and a non-empty selection, used to
instantiate `confirm_selected_electrode_drops_points`. -/
def ctWithSelection : CT :=
  { all_points := { label := "_ct", coordinates := [⟨0, 0, 0⟩, ⟨1, 1, 1⟩] }
    selected_points := { label := "_selected", coordinates := [⟨1, 1, 1⟩] }
    proposed_electrodes := []
    missing_electrodes := []
    confirmed_electrodes := [] }

/-- C10 witness: confirming the non-empty selection of `ctWithSelection`
as electrode `LA` appends an empty `LA` cloud and clears the selection. -/
theorem confirm_selected_electrode_drops_points_witness :
    (ctWithSelection.confirm_selected_electrode "LA").confirmed_electrodes
        = [{ label := "LA", coordinates := [] }]
    ∧ (ctWithSelection.confirm_selected_electrode "LA").selected_points.coordinates
        = [] :=
  confirm_selected_electrode_drops_points ctWithSelection "LA" (by decide)

/-- C9: the autosave state is a JSON object with exactly the keys
`ct_file`, `threshold`, `leads` and `timestamp` (in the order
`auto_save_state` builds them), and startup recovery on a session whose
named CT file no longer exists ends in the warned `ctFileMissing` outcome,
which restores no threshold and no leads. -/
theorem autosave_format_and_recovery_skip :
    (∀ (fn : String) (th : ℚ) (ld ts : String),
        (auto_save_state fn th ld ts).map Prod.fst
          = ["ct_file", "threshold", "leads", "timestamp"])
    ∧ (∀ (fileExists : String → Bool) (state : SessionState),
        fileExists state.ct_file = false →
          try_recover_state fileExists (some state) true
            = RecoveryOutcome.ctFileMissing) := by
  refine ⟨fun fn th ld ts => rfl, fun fileExists state h => ?_⟩
  simp [try_recover_state, h]

/-- A saved session pointing at a CT file that no longer exists. -/
def staleSession : SessionState :=
  { ct_file := "scan.nii.gz", threshold := 999 / 10, leads := "leads"
    timestamp := "2024-01-01T00:00:00" }

/-- C9 witness: with no file existing, recovering `staleSession` after the
user accepts ends in `ctFileMissing`, and the autosave object for it lists
exactly the four keys. -/
theorem autosave_format_and_recovery_skip_witness :
    try_recover_state (fun _ => false) (some staleSession) true
      = RecoveryOutcome.ctFileMissing :=
  (autosave_format_and_recovery_skip).2 (fun _ => false) staleSession rfl

/-- C3 counterexample: parsing the sample grid-map file yields 112 total
contacts, not the 106 the claim states (the per-electrode contact counts
10+10+10+10+6+10+6+6+8+8+6+10+6+6 sum to 112). -/
theorem gridmap_sample_not_106 :
    (parse sampleGridMap).1.contactTotal = 112
    ∧ (parse sampleGridMap).1.contactTotal ≠ 106 := by
  constructor
  · decide
  · decide

/-- C3 (amended): parsing the sample grid-map file (electrodes `LA` with
channels 1:10 through `RST` with channels 107:112, plus the trailing dummy
`DMY` at `NoWhere`) yields 14 electrodes with the dummy excluded and 112
total contacts, and the first contact of the second electrode `LHH` has
`globalChannelIdx == 11`; in general `globalChannelIdx` is assigned
1-based and cumulatively across the whole file in parse order, not reset
per electrode: the `k`-th contact of the electrode appended by any
successfully processed data row gets `globalChannelIdx` equal to the
running contact total before the row plus `k + 1`. -/
theorem gridmap_sample_statistics :
    (parse sampleGridMap).1.electrodeList.length = 14
    ∧ (parse sampleGridMap).1.contactTotal = 112
    ∧ (((parse sampleGridMap).1.electrodeList.getD 1 electrode.init).contactsList.getD 0
          contact.init).globalChannelIdx = some 11
    ∧ ∀ (st : GridMapParser) (line : String) (st' : GridMapParser) (e' : electrode),
        processDataLine st line = (st', none) →
        st'.electrodeList = st.electrodeList ++ [e'] →
        ∀ (k : Nat) (c : contact), e'.contactsList.get? k = some c →
          c.globalChannelIdx = some (st.contactTotal + k + 1) :=
  ⟨by decide, by decide, by decide, processDataLine_success_global_idx⟩

/-- A one-electrode, one-contact data row used to instantiate the general
part of the sample-statistics theorem. -/
def tinyRow : String := "0,T,Loc,Left,L,1:1,1:1"

/-- The contact `tinyRow` produces. -/
def tinyContact : contact :=
  { channelID := some 1, localChannelIdx := some 0, globalChannelIdx := some 1,
    contactType := some "T" }

/-- The electrode `tinyRow` produces. -/
def tinyElectrode : electrode :=
  { gridId := some 0, template := some "T", location := some "Loc",
    hemisphere := some "Left", label := some "L", numberOfChannels := 1,
    channelIDs := some [1], contactsList := [tinyContact] }

/-- The parser state after processing `tinyRow` from the initial state. -/
def tinyState : GridMapParser :=
  { channelIDsPresent := true, contactTotal := 1,
    electrodeList := [tinyElectrode] }

/-- C3 witness: the general cumulative-numbering statement instantiated on
`tinyRow` processed from the initial state. -/
theorem gridmap_sample_statistics_witness :
    tinyContact.globalChannelIdx = some (GridMapParser.init.contactTotal + 0 + 1) :=
  gridmap_sample_statistics.2.2.2 GridMapParser.init tinyRow tinyState tinyElectrode
    (by decide) (by decide) 0 tinyContact (by decide)

/-- C4: the code does not honour the header test.  On the sample file with
header column six named `Channel` (not `ChannelID`), the header test at
line 323 leaves `channelIDsPresent` false, but the `# for debug` override
at line 340 forces it to true on every data row, so every parsed contact
still carries a hardware channel ID taken from column six: the claim's
"contacts carry no channelID values" branch is unreachable. -/
theorem channel_header_override :
    ((splitOnChar ((splitOnChar sampleGridMapChannelHeader '\n').headD "") ',').getD 5 "")
        ≠ "ChannelID"
    ∧ (((parse sampleGridMapChannelHeader).1.electrodeList.getD 0
          electrode.init).contactsList.getD 0 contact.init).channelID = some 1
    ∧ (parse sampleGridMapChannelHeader).1.channelIDsPresent = true := by
  refine ⟨by decide, by decide, by decide⟩

/-- C7: when a data row's channel-ID range length differs from its contact
range length (with channel IDs present, which the parser forces), the
length assertion raises `AssertionError`: the parse of the whole file
stops with that error — any later lines are never processed — and the
electrodes committed by earlier rows survive unchanged as a prefix of the
final electrode list. -/
theorem mismatch_assertion_fatal (st : GridMapParser) (pre : List String)
    (line : String) (hok : (parseLines st pre).2 = none)
    (hmis : mismatchLine line) :
    (parseLines st (pre ++ [line])).2 = some ParseErr.assertionError
    ∧ (parseLines st (pre ++ [line])).1.electrodeList.take
          (parseLines st pre).1.electrodeList.length
        = (parseLines st pre).1.electrodeList
    ∧ ∀ post : List String,
        parseLines st (pre ++ line :: post) = parseLines st (pre ++ [line]) := by
  obtain ⟨e, hpe⟩ := processDataLine_mismatch (parseLines st pre).1 line hmis
  have h1 : parseLines st (pre ++ [line])
      = ({ (parseLines st pre).1 with
            channelIDsPresent := true
            electrodeList := (parseLines st pre).1.electrodeList ++ [e] },
         some ParseErr.assertionError) := by
    rw [parseLines_append_ok pre st [line] hok]
    exact parseLines_cons_err _ _ line [] _ hpe
  refine ⟨by rw [h1], ?_, ?_⟩
  · rw [h1]
    exact List.take_left _ _
  · intro post
    have hassoc : pre ++ line :: post = (pre ++ [line]) ++ post := by simp
    rw [hassoc]
    exact parseLines_append_err (pre ++ [line]) st post ParseErr.assertionError
      (by rw [h1])

/-- C7 witness: after the valid `LA` row, the row `mismatchRow` (six
channel IDs `41:46` against ten contacts `1:10`) stops the parse with the
assertion error, instantiating the fatal-mismatch theorem. -/
theorem mismatch_assertion_fatal_witness :
    (parseLines GridMapParser.init
        ["0,SpencerDepth1x10,Amygdala,Left,LA,1:10,1:10", mismatchRow]).2
      = some ParseErr.assertionError :=
  (mismatch_assertion_fatal GridMapParser.init
    ["0,SpencerDepth1x10,Amygdala,Left,LA,1:10,1:10"] mismatchRow (by decide)
    (by
      simp only [mismatchLine]
      refine ⟨by decide, by decide, by decide, ?_⟩
      exact ⟨_, _, rfl, rfl, by decide⟩)).1

/-- C8: a data row with fewer than seven comma-separated fields, and a
data row whose location field (the third) equals `NoWhere`, are skipped:
wherever such a row appears, parsing the file with the row is identical to
parsing the file without it, so the row contributes no electrode and no
contacts (and raises nothing). -/
theorem skip_rows_no_contribution (st : GridMapParser) (pre post : List String)
    (line : String)
    (h : (splitOnChar line ',').length < 7
      ∨ (splitOnChar line ',').getD 2 "" = "NoWhere") :
    parseLines st (pre ++ line :: post) = parseLines st (pre ++ post) := by
  induction pre generalizing st with
  | nil =>
    simp only [List.nil_append]
    exact parseLines_cons_ok st st line post (processDataLine_skip st line h)
  | cons p pre ih =>
    simp only [List.cons_append]
    cases hp : processDataLine st p with
    | mk st1 eOpt =>
      cases eOpt with
      | none =>
        rw [parseLines_cons_ok st st1 p _ hp, parseLines_cons_ok st st1 p _ hp]
        exact ih st1
      | some e =>
        rw [parseLines_cons_err st st1 p _ e hp, parseLines_cons_err st st1 p _ e hp]

/-- C8 witness: a malformed short row and the `NoWhere` dummy row each
leave the parse of a file identical to the parse without them. -/
theorem skip_rows_no_contribution_witness :
    parseLines GridMapParser.init [shortRow] = parseLines GridMapParser.init []
    ∧ parseLines GridMapParser.init
        [dummyRow, "0,SpencerDepth1x10,Amygdala,Left,LA,1:10,1:10"]
      = parseLines GridMapParser.init
        ["0,SpencerDepth1x10,Amygdala,Left,LA,1:10,1:10"] :=
  ⟨skip_rows_no_contribution GridMapParser.init [] [] shortRow (Or.inl (by decide)),
   skip_rows_no_contribution GridMapParser.init []
     ["0,SpencerDepth1x10,Amygdala,Left,LA,1:10,1:10"] dummyRow
     (Or.inr (by decide))⟩

/-- CT states sharing a master cloud but holding different prior
selections, used to instantiate the replacement theorem for
`select_points_near`. -/
def ctNoSelection : CT :=
  { all_points := { label := "_ct", coordinates := [⟨0, 0, 0⟩, ⟨100, 100, 100⟩] }
    selected_points := { label := "_selected", coordinates := [] }
    proposed_electrodes := []
    missing_electrodes := []
    confirmed_electrodes := [] }

/-- The same master cloud with a non-empty prior selection. -/
def ctPriorSelection : CT :=
  { ctNoSelection with
    selected_points := { label := "_selected", coordinates := [⟨5, 5, 5⟩] } }

/-- C5 witness: selecting near the same point from states with different
prior selections but the same master cloud produces the same selected
coordinates, instantiating the replacement theorem. -/
theorem select_points_near_replaces_witness :
    (ctPriorSelection.select_points_near ⟨1, 1, 1⟩).selected_points.coordinates
      = (ctNoSelection.select_points_near ⟨1, 1, 1⟩).selected_points.coordinates :=
  (select_points_near_replaces ctNoSelection ⟨1, 1, 1⟩ ⟨0, 0, 0⟩).2.2
    ctPriorSelection rfl

end VoxTool
